import Mathlib

/-!
Shallow embedding of the Vivyasense client backend's per-camera event
engines, translated from `src/backend/line_crossing_service.py`,
`src/backend/heatmap_service.py`, `src/backend/ai_service.py` and
`src/backend/video_service.py`, plus theorems settling the spec claims.

Numeric conventions: Python ints and floats are modelled as `ℚ`
(exact arithmetic); pixel coordinates are `ℚ` pairs; frame counters
are `ℕ`.  Python `int()` truncation toward zero is `truncQ`.
-/

namespace Vivyasense

/-- A 2-D pixel point `(x, y)`. -/
abbrev Point := ℚ × ℚ

/-- Python `int(q)`: truncation toward zero. -/
def truncQ (q : ℚ) : ℤ := if 0 ≤ q then ⌊q⌋ else ⌈q⌉

/-- A detection dict as produced by `AIService.detect_objects`:
`class`, `confidence`, `bbox` (`[x1, y1, x2, y2]`), `track_id`
(`None` when tracking is unavailable).  `class` is a Lean keyword so the
field is called `cls`. -/
structure Detection where
  cls : String
  confidence : ℚ
  bbox : List ℚ
  track_id : Option ℕ
deriving Repr, DecidableEq

/-- A line-crossing configuration dict (`line_crossings` entry):
`id`, `name`, `line_coordinates` (`[[x1,y1],[x2,y2]]`), `is_active`,
`count_direction`. -/
structure LineConfig where
  id : ℕ
  name : String
  line_coordinates : List Point
  is_active : Bool
  count_direction : String
deriving Repr, DecidableEq

/-- A `crossed_objects` record:
`{'last_direction': …, 'last_pos': …, 'frames_since_cross': …}`. -/
structure CrossRecord where
  last_direction : String
  last_pos : Point
  frames_since_cross : ℕ
deriving Repr, DecidableEq

/-- The crossing-event dict built at the end of
`LineCrossingDetector._detect_crossing`. -/
structure CrossingInfo where
  track_id : ℕ
  object_class : String
  confidence : ℚ
  direction : String
  crossing_point : Point
  bbox : List ℚ
deriving Repr, DecidableEq

/-- A crossing event as enriched by `check_line_crossing`
(adds `line_id`, `line_name`, `count_direction`). -/
structure Event where
  info : CrossingInfo
  line_id : ℕ
  line_name : String
  count_direction : String
deriving Repr, DecidableEq

/-- The mutable state of `LineCrossingDetector`:
`object_trajectories` (a `defaultdict(list)`, so a total map with
default `[]`) and `crossed_objects` (a dict, so a partial map). -/
structure DetectorState where
  object_trajectories : ℕ → List Point
  crossed_objects : ℕ × ℕ → Option CrossRecord

/-- Source constant `self.max_trajectory_length = 50`. -/
def max_trajectory_length : ℕ := 50

/-- Source constant `self.reset_distance = 80` (pixels). -/
def reset_distance : ℚ := 80

/-- Source constant `self.min_frames_between_same_direction = 15`. -/
def min_frames_between_same_direction : ℕ := 15

/-- The denominator of `LineCrossingDetector._line_intersection`:
`(x1 - x2) * (y3 - y4) - (y1 - y2) * (x3 - x4)`. -/
def intersection_denom (p1 p2 p3 p4 : Point) : ℚ :=
  (p1.1 - p2.1) * (p3.2 - p4.2) - (p1.2 - p2.2) * (p3.1 - p4.1)

/-- The parameter `t` of `_line_intersection`. -/
def intersection_t (p1 p2 p3 p4 : Point) : ℚ :=
  ((p1.1 - p3.1) * (p3.2 - p4.2) - (p1.2 - p3.2) * (p3.1 - p4.1)) /
    intersection_denom p1 p2 p3 p4

/-- The parameter `u` of `_line_intersection`. -/
def intersection_u (p1 p2 p3 p4 : Point) : ℚ :=
  -((p1.1 - p2.1) * (p1.2 - p3.2) - (p1.2 - p2.2) * (p1.1 - p3.1)) /
    intersection_denom p1 p2 p3 p4

/-- Translation of `LineCrossingDetector._line_intersection`: segment `p1p2` against
segment `p3p4`.  The Python function returns `(crossed, point)` with the
point present exactly when `crossed` is true, so it is modelled as an
`Option Point`. -/
def line_intersection (p1 p2 p3 p4 : Point) : Option Point :=
  let denom := intersection_denom p1 p2 p3 p4
  if |denom| < 1 / 10000000000 then
    none
  else
    let t := intersection_t p1 p2 p3 p4
    let u := intersection_u p1 p2 p3 p4
    if 0 ≤ t ∧ t ≤ 1 ∧ 0 ≤ u ∧ u ≤ 1 then
      some (p1.1 + t * (p2.1 - p1.1), p1.2 + t * (p2.2 - p1.2))
    else
      none

/-- The nested `cross_product(p1, p2, p3)` helper of
`_get_crossing_direction`. -/
def cross_product (p1 p2 p3 : Point) : ℚ :=
  (p2.1 - p1.1) * (p3.2 - p1.2) - (p2.2 - p1.2) * (p3.1 - p1.1)

/-- Translation of `LineCrossingDetector._get_crossing_direction`: classify the crossing
direction from the sign change of the cross product, with the dominant
line orientation choosing the vocabulary; unmatched cases fall through to
the generic `in`/`out` return at the bottom of the Python function. -/
def get_crossing_direction (prev_pos curr_pos line_start line_end : Point) :
    String :=
  let prev_cross := cross_product line_start line_end prev_pos
  let curr_cross := cross_product line_start line_end curr_pos
  let dx := line_end.1 - line_start.1
  let dy := line_end.2 - line_start.2
  let fallback := if prev_cross < 0 ∧ curr_cross > 0 then "in" else "out"
  if |dx| > |dy| then
    if prev_cross < 0 ∧ curr_cross > 0 then "up_to_down"
    else if prev_cross > 0 ∧ curr_cross < 0 then "down_to_up"
    else fallback
  else
    if prev_cross < 0 ∧ curr_cross > 0 then "left_to_right"
    else if prev_cross > 0 ∧ curr_cross < 0 then "right_to_left"
    else fallback

/-- The squared variant of `LineCrossingDetector._distance_to_line`
compared against a threshold: decides `_distance_to_line point [a,b] > d`
for `d ≥ 0` exactly, by squaring both sides of the source's
`|cross| / sqrt(len²) > d` (resp. `sqrt(distSq) > d` for a degenerate
line), which keeps the definition executable over `ℚ` (no square roots). -/
def distance_to_line_gt (point a b : Point) (d : ℚ) : Bool :=
  let lenSq := (b.1 - a.1) ^ 2 + (b.2 - a.2) ^ 2
  if lenSq = 0 then
    (point.1 - a.1) ^ 2 + (point.2 - a.2) ^ 2 > d ^ 2
  else
    ((b.2 - a.2) * point.1 - (b.1 - a.1) * point.2 +
        b.1 * a.2 - b.2 * a.1) ^ 2 > d ^ 2 * lenSq

/-- The segment-scanning loop of `_detect_crossing`
(`for i in range(max_segments_to_check)` with a `break` on the first
intersecting segment).  Takes the REVERSED trajectory (newest point
first); the fuel `5` bounds the number of segments, matching
`min(5, len(trajectory) - 1)` since recursion also stops when fewer than
two points remain. -/
def scan_segments (rev : List Point) (l1 l2 : Point) : ℕ → Option (Point × String)
  | 0 => none
  | fuel + 1 =>
    match rev with
    | curr :: prev :: rest =>
      match line_intersection prev curr l1 l2 with
      | some ip => some (ip, get_crossing_direction prev curr l1 l2)
      | none => scan_segments (prev :: rest) l1 l2 fuel
    | _ => none

/-- Specification-side description of the same scan, written from the
spec's words: the list of trajectory segments newest first is the
reversed trajectory zipped with its own tail (pairs `(curr, prev)`);
take the 5 most recent and use the first that intersects the line. -/
def scan_segments_spec (traj : List Point) (l1 l2 : Point) :
    Option (Point × String) :=
  ((traj.reverse.zip traj.reverse.tail).take 5).findSome? fun cp =>
    (line_intersection cp.2 cp.1 l1 l2).map fun ip =>
      (ip, get_crossing_direction cp.2 cp.1 l1 l2)

/-- Translation of `LineCrossingDetector._detect_crossing`: scan recent trajectory
segments for a crossing, debounce same-direction repeats, and on
acceptance overwrite the `crossed_objects` record and build the event.
Returns the optional event plus the updated `crossed_objects` map. -/
def detect_crossing (track_id line_id : ℕ) (l1 l2 : Point)
    (detection : Detection) (s : DetectorState) :
    Option CrossingInfo × (ℕ × ℕ → Option CrossRecord) :=
  let trajectory := s.object_trajectories track_id
  if trajectory.length < 2 then (none, s.crossed_objects)
  else
    match scan_segments trajectory.reverse l1 l2 5 with
    | none => (none, s.crossed_objects)
    | some (ip, dir) =>
      let key := (track_id, line_id)
      let suppressed : Bool :=
        match s.crossed_objects key with
        | some r =>
          r.last_direction == dir &&
            decide (r.frames_since_cross < min_frames_between_same_direction)
        | none => false
      if suppressed then (none, s.crossed_objects)
      else
        let last := trajectory.reverse.headD (0, 0)
        let newMap : ℕ × ℕ → Option CrossRecord := fun k =>
          if k = key then some ⟨dir, last, 0⟩ else s.crossed_objects k
        (some ⟨track_id, detection.cls, detection.confidence, dir, ip,
          detection.bbox⟩, newMap)

/-- Translation of `LineCrossingDetector._should_count_crossing` reduced to its two
string inputs (the only fields it reads): `both` accepts everything, a
cardinal filter accepts only the directions mapped to it. -/
def should_count_crossing (direction count_direction : String) : Bool :=
  if count_direction = "both" then true
  else
    let allowed : List String :=
      if count_direction = "up" then ["up_to_down", "in"]
      else if count_direction = "down" then ["down_to_up", "out"]
      else if count_direction = "left" then ["left_to_right", "in"]
      else if count_direction = "right" then ["right_to_left", "out"]
      else []
    allowed.contains direction

/-- The per-line body of `check_line_crossing`'s inner loop
(lines 92–132): skip inactive or malformed lines, increment the
`frames_since_cross` counter of an existing record and delete it when the
object has moved beyond `reset_distance`, then run `_detect_crossing` and
apply the `count_direction` filter. -/
def step_line (track_id : ℕ) (center : Point) (detection : Detection)
    (lc : LineConfig) (s : DetectorState) : DetectorState × List Event :=
  if ¬ lc.is_active then (s, [])
  else
    match lc.line_coordinates with
    | [a, b] =>
      let key := (track_id, lc.id)
      let crossed1 : ℕ × ℕ → Option CrossRecord :=
        match s.crossed_objects key with
        | none => s.crossed_objects
        | some r =>
          if distance_to_line_gt center a b reset_distance then
            fun k => if k = key then none else s.crossed_objects k
          else
            fun k =>
              if k = key then
                some { r with frames_since_cross := r.frames_since_cross + 1 }
              else s.crossed_objects k
      let s1 : DetectorState := { s with crossed_objects := crossed1 }
      let res := detect_crossing track_id lc.id a b detection s1
      let s2 : DetectorState := { s1 with crossed_objects := res.2 }
      match res.1 with
      | none => (s2, [])
      | some info =>
        let ev : Event := ⟨info, lc.id, lc.name, lc.count_direction⟩
        if should_count_crossing info.direction lc.count_direction then
          (s2, [ev])
        else (s2, [])
    | _ => (s, [])

/-- The trajectory append of `check_line_crossing` (lines 84–89): append
the center, then `pop(0)` once if the length exceeds
`max_trajectory_length`. -/
def append_traj (traj : List Point) (p : Point) : List Point :=
  let t := traj ++ [p]
  if max_trajectory_length < t.length then t.drop 1 else t

/-- The per-detection body of `check_line_crossing` (lines 69–132):
skip detections without a `track_id` or without a 4-element `bbox`,
otherwise append the bbox center to the trajectory and run every
configured line. -/
def process_detection (detection : Detection) (lines : List LineConfig)
    (s : DetectorState) : DetectorState × List Event :=
  match detection.track_id with
  | none => (s, [])
  | some track_id =>
    match detection.bbox with
    | [x1, y1, x2, y2] =>
      let center : Point :=
        ((truncQ ((x1 + x2) / 2) : ℚ), (truncQ ((y1 + y2) / 2) : ℚ))
      let traj := append_traj (s.object_trajectories track_id) center
      let s1 : DetectorState :=
        { s with object_trajectories := fun t =>
            if t = track_id then traj else s.object_trajectories t }
      lines.foldl
        (fun acc lc =>
          let res := step_line track_id center detection lc acc.1
          (res.1, acc.2 ++ res.2))
        (s1, [])
    | _ => (s, [])

/-- Translation of `LineCrossingDetector.check_line_crossing`: early return on an empty
line list, otherwise fold `process_detection` over the detections,
accumulating crossing events. -/
def check_line_crossing (detections : List Detection)
    (lines : List LineConfig) (s : DetectorState) :
    DetectorState × List Event :=
  if lines = [] then (s, [])
  else
    detections.foldl
      (fun acc d =>
        let res := process_detection d lines acc.1
        (res.1, acc.2 ++ res.2))
      (s, [])

/-- The fresh state built by `LineCrossingDetector.__init__`:
an empty `defaultdict(list)` and an empty dict. -/
def initial_detector_state : DetectorState :=
  ⟨fun _ => [], fun _ => none⟩

/-! ### Capture loop (`src/backend/video_service.py`, `VideoStream._capture_loop`) -/

/-- The loop-local counters of `VideoStream._capture_loop`:
`consecutive_failures`, plus observable effect counters (number of
`_reconnect_camera` calls performed and frames published to
`self.captured_frame`). -/
structure CaptureState where
  consecutive_failures : ℕ
  reconnects : ℕ
  frames_published : ℕ
deriving Repr, DecidableEq

/-- One iteration of the `while self.running` body of
`VideoStream._capture_loop`, driven by the result `ret` of
`self.cap.read()`.  On failure the counter is incremented and, strictly
above 10, `_reconnect_camera` is called and the counter reset; on
success the counter resets and the frame is published.  The body has no
branch that exits the loop or marks the camera offline: the loop runs
until `self.running` is cleared externally. -/
def capture_step (s : CaptureState) (ret : Bool) : CaptureState :=
  if ret then
    { s with consecutive_failures := 0,
             frames_published := s.frames_published + 1 }
  else
    let cf := s.consecutive_failures + 1
    if 10 < cf then
      { s with consecutive_failures := 0, reconnects := s.reconnects + 1 }
    else
      { s with consecutive_failures := cf }

/-- Iterate the capture-loop body over a sequence of read results. -/
def capture_run (s : CaptureState) (reads : List Bool) : CaptureState :=
  reads.foldl capture_step s

/-- Counters at capture-loop entry (`consecutive_failures = 0`). -/
def capture_initial : CaptureState := ⟨0, 0, 0⟩

/-! ### ROI evaluator (`src/backend/ai_service.py`) -/

/-- Translation of `AIService.is_point_in_roi`.  The `shapely` collaborator
(`Polygon(roi_coords).contains(Point(point))`) is abstracted as the
oracle `contains`, where `none` models a raised exception (e.g. a
degenerate polygon) and `some b` a returned boolean; the bare `except`
of the source maps any exception to `False`. -/
def is_point_in_roi (contains : Point → List Point → Option Bool)
    (point : Point) (roi_coords : List Point) : Bool :=
  match contains point roi_coords with
  | some b => b
  | none => false

/-- Translation of `AIService.check_roi_violation`: unpack the 4-tuple bbox, take its
geometric center and test containment. -/
def check_roi_violation (contains : Point → List Point → Option Bool)
    (x1 y1 x2 y2 : ℚ) (roi_coords : List Point) : Bool :=
  is_point_in_roi contains ((x1 + x2) / 2, (y1 + y2) / 2) roi_coords

/-! ### Heatmap accumulator (`src/backend/heatmap_service.py`) -/

/-- The `HeatmapGenerator` state: the intensity field is the row-major list
of the `height × width` `float32` array, modelled over `ℚ`. -/
structure HeatmapGenerator where
  height : ℕ
  width : ℕ
  heatmap : List ℚ
  decay_rate : ℚ
  frame_count : ℕ

/-- Translation of `HeatmapGenerator.update`: first `self.heatmap *= self.decay_rate`,
then each detection adds its clipped Gaussian blob, then
`self.frame_count += 1`.  The per-detection blob addition uses the
transcendental `np.exp`, so it is abstracted as the parameter `addBlob`
(it is irrelevant to the decay claims, which concern the empty
detection list). -/
def HeatmapGenerator.update (addBlob : Detection → List ℚ → List ℚ)
    (detections : List Detection) (h : HeatmapGenerator) :
    HeatmapGenerator :=
  let decayed := h.heatmap.map fun c => c * h.decay_rate
  let field := detections.foldl (fun f d => addBlob d f) decayed
  { h with heatmap := field, frame_count := h.frame_count + 1 }

/-! ### Helper lemmas -/

/-- Unfolding: the scan with no fuel left yields nothing. -/
theorem scan_segments_zero (l : List Point) (l1 l2 : Point) :
    scan_segments l l1 l2 0 = none := by
  cases l with
  | nil => rfl
  | cons c t => cases t <;> rfl

/-- Unfolding: the scan of an empty trajectory yields nothing. -/
theorem scan_segments_nil (l1 l2 : Point) (n : ℕ) :
    scan_segments [] l1 l2 (n + 1) = none := rfl

/-- Unfolding: the scan of a one-point trajectory yields nothing. -/
theorem scan_segments_single (c : Point) (l1 l2 : Point) (n : ℕ) :
    scan_segments [c] l1 l2 (n + 1) = none := rfl

/-- Unfolding: the scan tries the newest segment first, then recurses. -/
theorem scan_segments_cons (c p : Point) (r : List Point) (l1 l2 : Point)
    (n : ℕ) :
    scan_segments (c :: p :: r) l1 l2 (n + 1) =
      match line_intersection p c l1 l2 with
      | some ip => some (ip, get_crossing_direction p c l1 l2)
      | none => scan_segments (p :: r) l1 l2 n := rfl

/-- A successful segment scan needs at least two trajectory points. -/
theorem scan_segments_some_length {l : List Point} {l1 l2 : Point}
    {fuel : ℕ} {x : Point × String}
    (h : scan_segments l l1 l2 fuel = some x) : 2 ≤ l.length := by
  cases fuel with
  | zero => rw [scan_segments_zero] at h; exact absurd h (by simp)
  | succ n =>
    cases l with
    | nil => rw [scan_segments_nil] at h; exact absurd h (by simp)
    | cons c t =>
      cases t with
      | nil => rw [scan_segments_single] at h; exact absurd h (by simp)
      | cons p r => simp

/-- The fuelled scan equals "first intersecting segment among the
`fuel` newest", stated over the reversed trajectory. -/
theorem scan_segments_eq_findSome (l1 l2 : Point) :
    ∀ (fuel : ℕ) (l : List Point),
      scan_segments l l1 l2 fuel =
        ((l.zip l.tail).take fuel).findSome? fun cp =>
          (line_intersection cp.2 cp.1 l1 l2).map fun ip =>
            (ip, get_crossing_direction cp.2 cp.1 l1 l2) := by
  intro fuel
  induction fuel with
  | zero => intro l; rw [scan_segments_zero]; simp
  | succ n ih =>
    intro l
    cases l with
    | nil => rw [scan_segments_nil]; simp
    | cons c t =>
      cases t with
      | nil => rw [scan_segments_single]; simp
      | cons p r =>
        rw [scan_segments_cons]
        simp only [List.zip_cons_cons, List.tail_cons, List.take_succ_cons,
          List.findSome?_cons]
        cases h : line_intersection p c l1 l2 with
        | none => simp [h, ih (p :: r)]
        | some ip => simp [h]

/-- The function `step_line` never touches the trajectory map. -/
theorem step_line_trajectories (track_id : ℕ) (center : Point)
    (detection : Detection) (lc : LineConfig) (s : DetectorState) :
    (step_line track_id center detection lc s).1.object_trajectories =
      s.object_trajectories := by
  unfold step_line
  dsimp only
  repeat' split
  all_goals rfl

/-- Folding `step_line` over the line list never touches the
trajectory map. -/
theorem foldl_step_line_trajectories (track_id : ℕ) (center : Point)
    (detection : Detection) (lines : List LineConfig) :
    ∀ (acc : DetectorState × List Event),
      ((lines.foldl
        (fun acc lc =>
          let res := step_line track_id center detection lc acc.1
          (res.1, acc.2 ++ res.2)) acc).1).object_trajectories =
      acc.1.object_trajectories := by
  induction lines with
  | nil => intro acc; rfl
  | cons lc rest ih =>
    intro acc
    simp only [List.foldl_cons]
    rw [ih]
    exact step_line_trajectories track_id center detection lc acc.1

/-- Appending preserves the 50-point bound. -/
theorem append_traj_length_le {traj : List Point} (p : Point)
    (h : traj.length ≤ max_trajectory_length) :
    (append_traj traj p).length ≤ max_trajectory_length := by
  simp only [append_traj]
  split <;> simp_all

/-- Sum of a pointwise-scaled list. -/
theorem list_sum_map_mul (l : List ℚ) (d : ℚ) :
    (l.map fun c => c * d).sum = l.sum * d := by
  induction l with
  | nil => simp
  | cons a t ih => simp [ih, add_mul]

/-- The function `process_detection` preserves the trajectory-length bound. -/
theorem process_detection_bound (d : Detection) (lines : List LineConfig)
    (s : DetectorState)
    (h : ∀ tid, (s.object_trajectories tid).length ≤ max_trajectory_length) :
    ∀ tid, (((process_detection d lines s).1).object_trajectories tid).length ≤
      max_trajectory_length := by
  intro tid
  unfold process_detection
  cases hT : d.track_id with
  | none => exact h tid
  | some tid0 =>
    rcases hB : d.bbox with _ | ⟨q1, _ | ⟨q2, _ | ⟨q3, _ | ⟨q4, _ | ⟨q5, rest⟩⟩⟩⟩⟩
    · exact h tid
    · exact h tid
    · exact h tid
    · exact h tid
    · rw [foldl_step_line_trajectories]
      dsimp only
      split
      · exact append_traj_length_le _ (h tid0)
      · exact h tid
    · exact h tid

/-- Folding `process_detection` over the detections preserves the
trajectory-length bound. -/
theorem foldl_detections_bound (lines : List LineConfig) :
    ∀ (ds : List Detection) (acc : DetectorState × List Event),
      (∀ tid, (acc.1.object_trajectories tid).length ≤ max_trajectory_length) →
      ∀ tid, (((ds.foldl
        (fun acc d =>
          let res := process_detection d lines acc.1
          (res.1, acc.2 ++ res.2)) acc).1).object_trajectories tid).length ≤
        max_trajectory_length := by
  intro ds
  induction ds with
  | nil => intro acc h tid; exact h tid
  | cons d rest ih =>
    intro acc h tid
    simp only [List.foldl_cons]
    exact ih
      ((process_detection d lines acc.1).1,
        acc.2 ++ (process_detection d lines acc.1).2)
      (fun tid2 => process_detection_bound d lines acc.1 h tid2) tid

/-- A failed read below the threshold just increments the counter. -/
theorem capture_step_false_lt {c r p : ℕ} (h : c < 10) :
    capture_step ⟨c, r, p⟩ false = ⟨c + 1, r, p⟩ := by
  simp only [capture_step, Bool.false_eq_true, if_false]
  rw [if_neg (by omega)]

/-- The 11th consecutive failed read triggers a reconnect and resets the
counter. -/
theorem capture_step_false_ten {r p : ℕ} :
    capture_step ⟨10, r, p⟩ false = ⟨0, r + 1, p⟩ := by
  simp only [capture_step, Bool.false_eq_true, if_false]
  rw [if_pos (by omega)]

/-- Running the capture loop on `n` consecutive read failures from a
counter `c ≤ 10`: one reconnect per 11 accumulated failures. -/
theorem capture_run_replicate_false (n : ℕ) :
    ∀ (c r p : ℕ), c ≤ 10 →
      capture_run ⟨c, r, p⟩ (List.replicate n false) =
        ⟨(c + n) % 11, r + (c + n) / 11, p⟩ := by
  induction n with
  | zero =>
    intro c r p hc
    show (⟨c, r, p⟩ : CaptureState) = _
    have h1 : (c + 0) % 11 = c := by omega
    have h2 : r + (c + 0) / 11 = r := by omega
    rw [h1, h2]
  | succ n ih =>
    intro c r p hc
    have hcons : capture_run ⟨c, r, p⟩ (List.replicate (n + 1) false) =
        capture_run (capture_step ⟨c, r, p⟩ false)
          (List.replicate n false) := by
      rw [List.replicate_succ]; rfl
    rw [hcons]
    by_cases h10 : c = 10
    · subst h10
      rw [capture_step_false_ten, ih 0 (r + 1) p (by omega)]
      have h1 : (0 + n) % 11 = (10 + (n + 1)) % 11 := by omega
      have h2 : r + 1 + (0 + n) / 11 = r + (10 + (n + 1)) / 11 := by omega
      rw [h1, h2]
    · rw [capture_step_false_lt (by omega), ih (c + 1) r p (by omega)]
      have h1 : (c + 1 + n) % 11 = (c + (n + 1)) % 11 := by omega
      have h2 : r + (c + 1 + n) / 11 = r + (c + (n + 1)) / 11 := by omega
      rw [h1, h2]

/-! ### Claim theorems -/

/-- C4: two segments are reported as intersecting exactly when the
parametric solution yields `t, u ∈ [0,1]`; a determinant of absolute
value below `1e-10` (parallel) never intersects; and the crossing scan
tests at most the 5 most recent trajectory segments, newest first, using
the first (most recent) intersecting segment for the intersection point
and direction. -/
theorem segment_intersection_and_scan_characterization
    (p1 p2 p3 p4 : Point) :
    (|intersection_denom p1 p2 p3 p4| < 1 / 10000000000 →
      line_intersection p1 p2 p3 p4 = none) ∧
    (¬ |intersection_denom p1 p2 p3 p4| < 1 / 10000000000 →
      ((line_intersection p1 p2 p3 p4).isSome ↔
        (0 ≤ intersection_t p1 p2 p3 p4 ∧ intersection_t p1 p2 p3 p4 ≤ 1 ∧
          0 ≤ intersection_u p1 p2 p3 p4 ∧
          intersection_u p1 p2 p3 p4 ≤ 1))) ∧
    (∀ traj : List Point,
      scan_segments traj.reverse p3 p4 5 = scan_segments_spec traj p3 p4) := by
  refine ⟨?_, ?_, ?_⟩
  · intro h
    simp only [line_intersection]
    rw [if_pos h]
  · intro h
    simp only [line_intersection, if_neg h]
    split
    · simp_all
    · simp_all
  · intro traj
    rw [scan_segments_eq_findSome p3 p4 5 traj.reverse]
    rfl

/-- Witness for C4: a degenerate (zero-determinant) pair of segments
does not intersect, and the spec's example segments
`(100,80)–(100,120)` and `(0,100)–(200,100)` do. -/
theorem segment_intersection_and_scan_witness :
    line_intersection ((0 : ℚ), 0) ((0 : ℚ), 0) ((1 : ℚ), 1) ((2 : ℚ), 2) =
      none ∧
    (line_intersection ((100 : ℚ), 80) ((100 : ℚ), 120) ((0 : ℚ), 100)
      ((200 : ℚ), 100)).isSome := by
  constructor
  · exact (segment_intersection_and_scan_characterization _ _ _ _).1
      (by norm_num [intersection_denom])
  · exact ((segment_intersection_and_scan_characterization _ _ _ _).2.1
      (by norm_num [intersection_denom])).mpr
      (by norm_num [intersection_t, intersection_u, intersection_denom])

/-- C5 counterexample: for the horizontal-dominant line `(0,0)–(10,0)`
and the ambiguous sign pattern where the previous point lies exactly on
the line (cross product `0`), the code returns `"out"`, not the claimed
default `"in"`. -/
theorem direction_ambiguous_default_cex :
    cross_product ((0 : ℚ), 0) ((10 : ℚ), 0) ((5 : ℚ), 0) = 0 ∧
    get_crossing_direction ((5 : ℚ), 0) ((5 : ℚ), 5) ((0 : ℚ), 0)
      ((10 : ℚ), 0) = "out" ∧
    get_crossing_direction ((5 : ℚ), 0) ((5 : ℚ), 5) ((0 : ℚ), 0)
      ((10 : ℚ), 0) ≠ "in" := by
  have h2 : get_crossing_direction ((5 : ℚ), 0) ((5 : ℚ), 5) ((0 : ℚ), 0)
      ((10 : ℚ), 0) = "out" := by
    norm_num [get_crossing_direction, cross_product]
  exact ⟨by norm_num [cross_product], h2, by rw [h2]; decide⟩

/-- C5 (amended): sign flips map to the dominant-orientation direction
names as claimed, but every unresolved sign pattern degrades to the
generic `"out"` — the generic `"in"` fallback branch is unreachable,
since both sign-flip patterns are consumed by the dominant-orientation
branches. -/
theorem direction_classification
    (prev_pos curr_pos line_start line_end : Point) :
    (|line_end.1 - line_start.1| > |line_end.2 - line_start.2| →
      cross_product line_start line_end prev_pos < 0 →
      cross_product line_start line_end curr_pos > 0 →
      get_crossing_direction prev_pos curr_pos line_start line_end =
        "up_to_down") ∧
    (|line_end.1 - line_start.1| > |line_end.2 - line_start.2| →
      cross_product line_start line_end prev_pos > 0 →
      cross_product line_start line_end curr_pos < 0 →
      get_crossing_direction prev_pos curr_pos line_start line_end =
        "down_to_up") ∧
    (¬ |line_end.1 - line_start.1| > |line_end.2 - line_start.2| →
      cross_product line_start line_end prev_pos < 0 →
      cross_product line_start line_end curr_pos > 0 →
      get_crossing_direction prev_pos curr_pos line_start line_end =
        "left_to_right") ∧
    (¬ |line_end.1 - line_start.1| > |line_end.2 - line_start.2| →
      cross_product line_start line_end prev_pos > 0 →
      cross_product line_start line_end curr_pos < 0 →
      get_crossing_direction prev_pos curr_pos line_start line_end =
        "right_to_left") ∧
    (¬ (cross_product line_start line_end prev_pos < 0 ∧
        cross_product line_start line_end curr_pos > 0) →
      ¬ (cross_product line_start line_end prev_pos > 0 ∧
        cross_product line_start line_end curr_pos < 0) →
      get_crossing_direction prev_pos curr_pos line_start line_end =
        "out") := by
  refine ⟨?_, ?_, ?_, ?_, ?_⟩
  · intro hd h1 h2
    simp [get_crossing_direction, hd, h1, h2]
  · intro hd h1 h2
    simp [get_crossing_direction, hd, h1, h2, asymm h2, asymm h1]
  · intro hd h1 h2
    simp [get_crossing_direction, hd, h1, h2]
  · intro hd h1 h2
    simp [get_crossing_direction, hd, h1, h2, asymm h2, asymm h1]
  · intro hn1 hn2
    simp only [get_crossing_direction, if_neg hn1, if_neg hn2]
    split <;> rfl

/-- Witness for C5's amended theorem: the spec's example crossing is
classified `up_to_down`, and the ambiguous on-the-line pattern yields
`"out"`. -/
theorem direction_classification_witness :
    get_crossing_direction ((100 : ℚ), 80) ((100 : ℚ), 120) ((0 : ℚ), 100)
      ((200 : ℚ), 100) = "up_to_down" ∧
    get_crossing_direction ((5 : ℚ), 0) ((5 : ℚ), 5) ((0 : ℚ), 0)
      ((10 : ℚ), 0) = "out" := by
  constructor
  · exact (direction_classification _ _ _ _).1 (by norm_num)
      (by norm_num [cross_product]) (by norm_num [cross_product])
  · exact (direction_classification _ _ _ _).2.2.2.2
      (by norm_num [cross_product]) (by norm_num [cross_product])

/-- C7: the ROI violation check computes the bounding box's geometric
center and returns a boolean; a containment-test failure (malformed
polygon — the `contains` oracle yields `none`, modelling a raised
exception) is reported as `false`, never propagated. -/
theorem roi_check_total (contains : Point → List Point → Option Bool)
    (x1 y1 x2 y2 : ℚ) (roi_coords : List Point) :
    check_roi_violation contains x1 y1 x2 y2 roi_coords =
      is_point_in_roi contains ((x1 + x2) / 2, (y1 + y2) / 2) roi_coords ∧
    (contains ((x1 + x2) / 2, (y1 + y2) / 2) roi_coords = none →
      check_roi_violation contains x1 y1 x2 y2 roi_coords = false) := by
  refine ⟨rfl, fun h => ?_⟩
  simp [check_roi_violation, is_point_in_roi, h]

/-- Witness for C7: an always-raising containment oracle yields
`false`. -/
theorem roi_check_total_witness :
    check_roi_violation (fun _ _ => none) 0 0 10 10 [] = false :=
  (roi_check_total (fun _ _ => none) 0 0 10 10 []).2 rfl

/-- C8: a heatmap update with an empty detection list multiplies every
cell by the decay factor and changes nothing else (dimensions and rate
unchanged, frame counter incremented), so while the field is nonzero the
total intensity strictly decreases. -/
theorem heatmap_empty_update_decays (addBlob : Detection → List ℚ → List ℚ)
    (h : HeatmapGenerator)
    (hd0 : 0 < h.decay_rate) (hd1 : h.decay_rate < 1)
    (hnn : ∀ c ∈ h.heatmap, 0 ≤ c) (hpos : ∃ c ∈ h.heatmap, 0 < c) :
    (h.update addBlob []).heatmap =
      (h.heatmap.map fun c => c * h.decay_rate) ∧
    (h.update addBlob []).heatmap.sum < h.heatmap.sum ∧
    (h.update addBlob []).height = h.height ∧
    (h.update addBlob []).width = h.width ∧
    (h.update addBlob []).decay_rate = h.decay_rate ∧
    (h.update addBlob []).frame_count = h.frame_count + 1 := by
  have hmap : (h.update addBlob []).heatmap =
      (h.heatmap.map fun c => c * h.decay_rate) := rfl
  refine ⟨hmap, ?_, rfl, rfl, rfl, rfl⟩
  rw [hmap, list_sum_map_mul]
  have hsum : 0 < h.heatmap.sum := by
    obtain ⟨c, hc, hcpos⟩ := hpos
    exact lt_of_lt_of_le hcpos (List.single_le_sum hnn c hc)
  exact mul_lt_of_lt_one_right hsum hd1

/-- Witness for C8: a 1×2 field `[1, 0]` with the default decay rate
`0.98` strictly loses total intensity on an empty update. -/
theorem heatmap_empty_update_decays_witness :
    ((⟨1, 2, [1, 0], 98 / 100, 0⟩ : HeatmapGenerator).update
      (fun _ f => f) []).heatmap.sum < ([1, 0] : List ℚ).sum :=
  (heatmap_empty_update_decays (fun _ f => f) ⟨1, 2, [1, 0], 98 / 100, 0⟩
    (by norm_num) (by norm_num)
    (by
      intro c hc
      have hc2 : c = 1 ∨ c = 0 := by simpa using hc
      rcases hc2 with h | h <;> norm_num [h])
    ⟨1, by simp, by norm_num⟩).2.1

/-- C6 counterexample: running the capture-loop body through 200
consecutive read failures — double the claimed failure budget of 100 —
leaves the loop in its ordinary retry state (counter 2, 18 reconnects
performed, still iterating): the loop body has no failure budget, no
termination branch and no camera-offline signal; it reconnects after
every run of 11 consecutive failures, indefinitely. -/
theorem capture_loop_no_termination_cex :
    capture_run capture_initial (List.replicate 200 false) = ⟨2, 18, 0⟩ := by
  have h := capture_run_replicate_false 200 0 0 0 (by omega)
  rw [show capture_initial = (⟨0, 0, 0⟩ : CaptureState) from rfl, h]

/-- C6 (amended): transient read failures are retried indefinitely —
a successful read resets the counter, a failed read below the threshold
only increments it, the 11th consecutive failure (`> 10`) triggers a
full reconnect and resets the counter, and `n` consecutive failures
always leave the loop running with `n / 11` reconnects performed; there
is no larger failure budget and read failures never terminate the
stream. -/
theorem capture_failure_semantics (n : ℕ) :
    capture_run capture_initial (List.replicate n false) =
      ⟨n % 11, n / 11, 0⟩ ∧
    (∀ st : CaptureState, capture_step st true =
      ⟨0, st.reconnects, st.frames_published + 1⟩) ∧
    (∀ st : CaptureState, st.consecutive_failures = 10 →
      capture_step st false =
        ⟨0, st.reconnects + 1, st.frames_published⟩) ∧
    (∀ st : CaptureState, st.consecutive_failures < 10 →
      capture_step st false =
        ⟨st.consecutive_failures + 1, st.reconnects,
          st.frames_published⟩) := by
  refine ⟨?_, ?_, ?_, ?_⟩
  · have h := capture_run_replicate_false n 0 0 0 (by omega)
    rw [show capture_initial = (⟨0, 0, 0⟩ : CaptureState) from rfl, h]
    have h1 : (0 + n) % 11 = n % 11 := by omega
    have h2 : 0 + (0 + n) / 11 = n / 11 := by omega
    rw [h1, h2]
  · intro st
    simp [capture_step]
  · intro st h10
    cases st with
    | mk c r p =>
      simp only at h10
      subst h10
      exact capture_step_false_ten
  · intro st hlt
    cases st with
    | mk c r p =>
      simp only at hlt
      exact capture_step_false_lt hlt

/-- Witness for C6's amended theorem: 22 consecutive failures give two
reconnects and a reset counter; a failure at counter 10 reconnects; a
failure at counter 3 only increments. -/
theorem capture_failure_semantics_witness :
    capture_run capture_initial (List.replicate 22 false) = ⟨0, 2, 0⟩ ∧
    capture_step ⟨10, 0, 0⟩ false = ⟨0, 1, 0⟩ ∧
    capture_step ⟨3, 1, 5⟩ false = ⟨4, 1, 5⟩ :=
  ⟨(capture_failure_semantics 22).1,
    (capture_failure_semantics 0).2.2.1 ⟨10, 0, 0⟩ rfl,
    (capture_failure_semantics 0).2.2.2 ⟨3, 1, 5⟩ (by norm_num)⟩

/-- C10: a detection with no `track_id` or a malformed bounding box is
skipped entirely — it changes neither trajectories nor crossing state
and emits no event, and removing it from the detection list leaves the
whole `check_line_crossing` result unchanged. -/
theorem invalid_detection_is_skipped (d : Detection)
    (lines : List LineConfig) (s : DetectorState)
    (h : d.track_id = none ∨ d.bbox.length ≠ 4) :
    process_detection d lines s = (s, []) ∧
    ∀ (ds1 ds2 : List Detection),
      check_line_crossing (ds1 ++ d :: ds2) lines s =
        check_line_crossing (ds1 ++ ds2) lines s := by
  have h1 : ∀ s0 : DetectorState, process_detection d lines s0 = (s0, []) := by
    intro s0
    unfold process_detection
    cases hT : d.track_id with
    | none => rfl
    | some tid0 =>
      have hb4 : d.bbox.length ≠ 4 := by
        rcases h with ht | hb
        · rw [hT] at ht; exact absurd ht (by simp)
        · exact hb
      rcases hB : d.bbox with _ | ⟨q1, _ | ⟨q2, _ | ⟨q3, _ | ⟨q4, _ | ⟨q5, rest⟩⟩⟩⟩⟩
      · rfl
      · rfl
      · rfl
      · rfl
      · exact absurd (by rw [hB]; rfl) hb4
      · rfl
  refine ⟨h1 s, fun ds1 ds2 => ?_⟩
  unfold check_line_crossing
  by_cases hl : lines = []
  · simp [hl]
  · simp only [if_neg hl]
    rw [List.foldl_append, List.foldl_append, List.foldl_cons]
    congr 1
    simp [h1]

/-- Witness for C10: a detection with a 3-element bounding box leaves a
fresh detector untouched. -/
theorem invalid_detection_is_skipped_witness :
    process_detection ⟨"person", 9 / 10, [1, 2, 3], some 7⟩ []
      initial_detector_state = (initial_detector_state, []) :=
  (invalid_detection_is_skipped ⟨"person", 9 / 10, [1, 2, 3], some 7⟩ []
    initial_detector_state (Or.inr (by simp))).1

/-- C1: once a crossing has been accepted with direction `d` (stored
record, counter `f` frames since the count), a frame whose scan again
detects a crossing of the same line in the same direction produces no
event when fewer than `min_frames_between_same_direction` frames have
elapsed (counter incremented to `f + 1 < 15`) and the object is still
within `reset_distance`; the original record survives with its counter
advanced, so the two same-direction crossings yield only the one
already-accepted event. -/
theorem same_direction_crossing_debounced
    (track_id : ℕ) (center : Point) (detection : Detection) (lc : LineConfig)
    (a b last_pos ip : Point) (d : String) (f : ℕ) (s : DetectorState)
    (hactive : lc.is_active = true)
    (hcoords : lc.line_coordinates = [a, b])
    (hrec : s.crossed_objects (track_id, lc.id) = some ⟨d, last_pos, f⟩)
    (hnear : distance_to_line_gt center a b reset_distance = false)
    (hscan : scan_segments (s.object_trajectories track_id).reverse a b 5 =
      some (ip, d))
    (hf : f + 1 < min_frames_between_same_direction) :
    (step_line track_id center detection lc s).2 = [] ∧
    (step_line track_id center detection lc s).1.crossed_objects
      (track_id, lc.id) = some ⟨d, last_pos, f + 1⟩ := by
  have hlen : ¬ (s.object_trajectories track_id).length < 2 := by
    have h2 := scan_segments_some_length hscan
    simp only [List.length_reverse] at h2
    omega
  have key : step_line track_id center detection lc s =
      ({ s with crossed_objects := fun k =>
          if k = (track_id, lc.id) then some ⟨d, last_pos, f + 1⟩
          else s.crossed_objects k }, []) := by
    simp only [step_line, hactive, hcoords, hrec, hnear]
    simp only [detect_crossing]
    rw [if_neg (by simp), if_neg hlen, hscan]
    simp only [if_pos rfl]
    rw [if_pos (by simp [hf])]
    simp
  rw [key]
  exact ⟨rfl, by simp⟩

/-- Witness for C1: the spec's example line `(0,100)–(200,100)` with an
up-to-down crossing already counted (counter 0); one frame later, while
still 18 px from the line, the scan re-detects the same crossing from
the older trajectory segment and the event is suppressed. -/
theorem same_direction_crossing_debounced_witness :
    (step_line 7 ((100 : ℚ), 118) ⟨"person", 9 / 10, [90, 108, 110, 128], some 7⟩
      ⟨3, "L", [((0 : ℚ), 100), ((200 : ℚ), 100)], true, "both"⟩
      ⟨fun tid => if tid = 7 then
          [((100 : ℚ), 80), ((100 : ℚ), 120), ((100 : ℚ), 118)] else [],
        fun k => if k = (7, 3) then
          some ⟨"up_to_down", ((100 : ℚ), 120), 0⟩ else none⟩).2 = [] ∧
    (step_line 7 ((100 : ℚ), 118) ⟨"person", 9 / 10, [90, 108, 110, 128], some 7⟩
      ⟨3, "L", [((0 : ℚ), 100), ((200 : ℚ), 100)], true, "both"⟩
      ⟨fun tid => if tid = 7 then
          [((100 : ℚ), 80), ((100 : ℚ), 120), ((100 : ℚ), 118)] else [],
        fun k => if k = (7, 3) then
          some ⟨"up_to_down", ((100 : ℚ), 120), 0⟩ else none⟩).1.crossed_objects
      (7, 3) = some ⟨"up_to_down", ((100 : ℚ), 120), 1⟩ :=
  same_direction_crossing_debounced 7 ((100 : ℚ), 118) _ _
    ((0 : ℚ), 100) ((200 : ℚ), 100) ((100 : ℚ), 120) ((100 : ℚ), 100)
    "up_to_down" 0 _
    rfl rfl (by simp)
    (by norm_num [distance_to_line_gt, reset_distance])
    (by
      show scan_segments
        ([((100 : ℚ), 80), ((100 : ℚ), 120), ((100 : ℚ), 118)]).reverse
        ((0 : ℚ), 100) ((200 : ℚ), 100) 5 = some (((100 : ℚ), 100), "up_to_down")
      norm_num [scan_segments_cons, line_intersection, intersection_denom,
        intersection_t, intersection_u, get_crossing_direction, cross_product])
    (by norm_num [min_frames_between_same_direction])

/-- C2: when the stored record's direction differs from the newly
classified direction, `_detect_crossing` accepts immediately — an event
with the new direction is returned and the record is overwritten with
the new direction, the trajectory's last point and a zeroed counter —
for every value of the frames-since-cross counter. -/
theorem opposite_direction_crossing_accepted
    (track_id line_id : ℕ) (a b last_pos ip : Point) (d d' : String) (f : ℕ)
    (detection : Detection) (s : DetectorState)
    (hrec : s.crossed_objects (track_id, line_id) = some ⟨d', last_pos, f⟩)
    (hscan : scan_segments (s.object_trajectories track_id).reverse a b 5 =
      some (ip, d))
    (hdiff : d' ≠ d) :
    (detect_crossing track_id line_id a b detection s).1 =
      some ⟨track_id, detection.cls, detection.confidence, d, ip,
        detection.bbox⟩ ∧
    (detect_crossing track_id line_id a b detection s).2 (track_id, line_id) =
      some ⟨d, (s.object_trajectories track_id).reverse.headD (0, 0), 0⟩ := by
  have hlen : ¬ (s.object_trajectories track_id).length < 2 := by
    have h2 := scan_segments_some_length hscan
    simp only [List.length_reverse] at h2
    omega
  have key : detect_crossing track_id line_id a b detection s =
      (some ⟨track_id, detection.cls, detection.confidence, d, ip,
        detection.bbox⟩,
       fun k => if k = (track_id, line_id) then
          some ⟨d, (s.object_trajectories track_id).reverse.headD (0, 0), 0⟩
        else s.crossed_objects k) := by
    simp only [detect_crossing, hrec]
    rw [if_neg hlen, hscan]
    dsimp only
    rw [if_neg (by simp [hdiff])]
  rw [key]
  exact ⟨rfl, by simp⟩

/-- Witness for C2: a `left_to_right` record and an immediately
following `right_to_left` scan (counter still 0) is accepted and the
record overwritten. -/
theorem opposite_direction_crossing_accepted_witness :
    (detect_crossing 7 3 ((100 : ℚ), 0) ((100 : ℚ), 200)
      ⟨"person", 9 / 10, [110, 90, 130, 110], some 7⟩
      ⟨fun tid => if tid = 7 then [((80 : ℚ), 100), ((120 : ℚ), 100)] else [],
        fun k => if k = (7, 3) then
          some ⟨"left_to_right", ((80 : ℚ), 100), 0⟩ else none⟩).1 =
      some ⟨7, "person", 9 / 10, "right_to_left", ((100 : ℚ), 100),
        [110, 90, 130, 110]⟩ :=
  (opposite_direction_crossing_accepted 7 3 ((100 : ℚ), 0) ((100 : ℚ), 200)
    ((80 : ℚ), 100) ((100 : ℚ), 100) "right_to_left" "left_to_right" 0 _ _
    rfl
    (by
      show scan_segments ([((80 : ℚ), 100), ((120 : ℚ), 100)]).reverse
        ((100 : ℚ), 0) ((100 : ℚ), 200) 5 =
        some (((100 : ℚ), 100), "right_to_left")
      norm_num [scan_segments_cons, line_intersection, intersection_denom,
        intersection_t, intersection_u, get_crossing_direction, cross_product])
    (by decide)).1

/-- C3: when a frame shows the object farther than `reset_distance` from
the line, the per-line step deletes the `(track_id, line_id)` record
(here, with no crossing detected in the same frame, the deletion is
visible at the end of the step and no event is emitted); and from a
state without a record, any detected crossing — in particular one in the
same direction as the deleted record — is accepted by
`_detect_crossing` regardless of elapsed frame count. -/
theorem reset_distance_clears_and_rearms
    (track_id : ℕ) (center : Point) (detection : Detection) (lc : LineConfig)
    (a b : Point) (r : CrossRecord) (s : DetectorState)
    (hactive : lc.is_active = true)
    (hcoords : lc.line_coordinates = [a, b])
    (hrec : s.crossed_objects (track_id, lc.id) = some r)
    (hfar : distance_to_line_gt center a b reset_distance = true)
    (hnoscan : scan_segments (s.object_trajectories track_id).reverse a b 5 =
      none) :
    (step_line track_id center detection lc s).1.crossed_objects
      (track_id, lc.id) = none ∧
    (step_line track_id center detection lc s).2 = [] ∧
    ∀ (s2 : DetectorState) (det2 : Detection) (ip : Point) (dir : String),
      s2.crossed_objects (track_id, lc.id) = none →
      scan_segments (s2.object_trajectories track_id).reverse a b 5 =
        some (ip, dir) →
      (detect_crossing track_id lc.id a b det2 s2).1 =
        some ⟨track_id, det2.cls, det2.confidence, dir, ip, det2.bbox⟩ := by
  have key : step_line track_id center detection lc s =
      ({ s with crossed_objects := fun k =>
          if k = (track_id, lc.id) then none else s.crossed_objects k },
        []) := by
    simp only [step_line, hactive, hcoords, hrec, hfar]
    simp only [detect_crossing]
    rw [if_neg (by simp)]
    by_cases hl : (s.object_trajectories track_id).length < 2
    · rw [if_pos hl]
      simp
    · rw [if_neg hl, hnoscan]
      simp
  refine ⟨by rw [key]; simp, by rw [key], ?_⟩
  intro s2 det2 ip dir h2 hscan2
  have hlen2 : ¬ (s2.object_trajectories track_id).length < 2 := by
    have hx := scan_segments_some_length hscan2
    simp only [List.length_reverse] at hx
    omega
  have key2 : detect_crossing track_id lc.id a b det2 s2 =
      (some ⟨track_id, det2.cls, det2.confidence, dir, ip, det2.bbox⟩,
       fun k => if k = (track_id, lc.id) then
          some ⟨dir, (s2.object_trajectories track_id).reverse.headD (0, 0), 0⟩
        else s2.crossed_objects k) := by
    simp only [detect_crossing, h2]
    rw [if_neg hlen2, hscan2]
    dsimp only
    rw [if_neg (by simp)]
  rw [key2]

/-- Witness for C3: a record at line `(0,100)–(200,100)` while the
object sits 81 px away (counter 3) is deleted by the step; a fresh state
crossing the line up-to-down afterwards is accepted. -/
theorem reset_distance_clears_and_rearms_witness :
    (step_line 7 ((100 : ℚ), 181) ⟨"person", 9 / 10, [90, 171, 110, 191], some 7⟩
      ⟨3, "L", [((0 : ℚ), 100), ((200 : ℚ), 100)], true, "both"⟩
      ⟨fun tid => if tid = 7 then [((100 : ℚ), 181)] else [],
        fun k => if k = (7, 3) then
          some ⟨"up_to_down", ((100 : ℚ), 120), 3⟩ else none⟩).1.crossed_objects
      (7, 3) = none ∧
    (detect_crossing 7 3 ((0 : ℚ), 100) ((200 : ℚ), 100)
      ⟨"person", 9 / 10, [90, 100, 110, 140], some 7⟩
      ⟨fun tid => if tid = 7 then [((100 : ℚ), 80), ((100 : ℚ), 120)] else [],
        fun _ => none⟩).1 =
      some ⟨7, "person", 9 / 10, "up_to_down", ((100 : ℚ), 100),
        [90, 100, 110, 140]⟩ := by
  have h := reset_distance_clears_and_rearms 7 ((100 : ℚ), 181)
    ⟨"person", 9 / 10, [90, 171, 110, 191], some 7⟩
    ⟨3, "L", [((0 : ℚ), 100), ((200 : ℚ), 100)], true, "both"⟩
    ((0 : ℚ), 100) ((200 : ℚ), 100) ⟨"up_to_down", ((100 : ℚ), 120), 3⟩
    ⟨fun tid => if tid = 7 then [((100 : ℚ), 181)] else [],
      fun k => if k = (7, 3) then
        some ⟨"up_to_down", ((100 : ℚ), 120), 3⟩ else none⟩
    rfl rfl (by simp)
    (by norm_num [distance_to_line_gt, reset_distance])
    (by
      show scan_segments ([((100 : ℚ), 181)]).reverse ((0 : ℚ), 100)
        ((200 : ℚ), 100) 5 = none
      rfl)
  exact ⟨h.1, h.2.2
    ⟨fun tid => if tid = 7 then [((100 : ℚ), 80), ((100 : ℚ), 120)] else [],
      fun _ => none⟩
    ⟨"person", 9 / 10, [90, 100, 110, 140], some 7⟩
    ((100 : ℚ), 100) "up_to_down" rfl
    (by
      show scan_segments ([((100 : ℚ), 80), ((100 : ℚ), 120)]).reverse
        ((0 : ℚ), 100) ((200 : ℚ), 100) 5 =
        some (((100 : ℚ), 100), "up_to_down")
      norm_num [scan_segments_cons, line_intersection, intersection_denom,
        intersection_t, intersection_u, get_crossing_direction,
        cross_product])⟩

/-- C9: after any `check_line_crossing` call from a state whose
trajectories respect the 50-point bound, every trajectory still holds at
most 50 points; and appending to a full (50-point) trajectory evicts
exactly the oldest point, preserving the order of the rest with the new
point last. -/
theorem trajectory_bound_and_fifo
    (detections : List Detection) (lines : List LineConfig)
    (s : DetectorState)
    (hbound : ∀ tid,
      (s.object_trajectories tid).length ≤ max_trajectory_length) :
    (∀ tid,
      (((check_line_crossing detections lines s).1).object_trajectories
        tid).length ≤ max_trajectory_length) ∧
    (∀ (t : List Point) (p : Point), t.length = max_trajectory_length →
      append_traj t p = t.tail ++ [p]) := by
  constructor
  · intro tid
    unfold check_line_crossing
    split
    · exact hbound tid
    · exact foldl_detections_bound lines detections (s, []) hbound tid
  · intro t p ht
    simp only [append_traj]
    rw [if_pos (by simp [ht])]
    rw [List.drop_append_of_le_length
      (by rw [ht]; norm_num [max_trajectory_length])]
    rw [List.drop_one]

/-- Witness for C9: an empty detector stays within the bound, and a full
50-point trajectory evicts its head on append. -/
theorem trajectory_bound_and_fifo_witness :
    (((check_line_crossing [] [] initial_detector_state).1).object_trajectories
      0).length ≤ max_trajectory_length ∧
    append_traj (List.replicate 50 ((0 : ℚ), (0 : ℚ))) (1, 1) =
      (List.replicate 50 ((0 : ℚ), (0 : ℚ))).tail ++ [(1, 1)] := by
  constructor
  · exact (trajectory_bound_and_fifo [] [] initial_detector_state
      (fun tid => by simp [initial_detector_state, max_trajectory_length])).1 0
  · exact (trajectory_bound_and_fifo [] [] initial_detector_state
      (fun tid => by simp [initial_detector_state, max_trajectory_length])).2
      (List.replicate 50 ((0 : ℚ), (0 : ℚ))) (1, 1)
      (by simp [max_trajectory_length])

end Vivyasense
